import Mathlib

/-!
Verification of the RebootEarth crop-recommendation core.

Shallow embedding of the Python sources:
* `src/core/earth_engine_integration.py` — `AlphaEarthFeatureExtractor`
  (feature resolver: real embedding path and synthetic zone fallback);
* `src/web/app_ultra_integrated.py` — `handle_batch_request` (batch dispatcher);
* `src/features/sms_service.py` — `FarmerContactManager` (contacts map).

Python floats are modelled as rationals (`ℚ`); Python's string `hash` is an
abstract parameter `pyHash : String → ℤ` (fixed within a process run);
`numpy.sqrt` inside `numpy.std` is an abstract parameter `sqrtFn : ℚ → ℚ`.
-/

namespace RebootEarth

/-- The 7-field agricultural feature record produced by the resolver
(the Python dict with keys nitrogen, phosphorus, potassium, temperature,
humidity, ph, rainfall). -/
structure FeatureVector where
  nitrogen : ℚ
  phosphorus : ℚ
  potassium : ℚ
  temperature : ℚ
  humidity : ℚ
  ph : ℚ
  rainfall : ℚ
deriving DecidableEq, Repr

attribute [ext] FeatureVector

/-- The dict literal returned by the Python code, key order as in the source. -/
def FeatureVector.toDict (fv : FeatureVector) : List (String × ℚ) :=
  [("nitrogen", fv.nitrogen), ("phosphorus", fv.phosphorus),
   ("potassium", fv.potassium), ("temperature", fv.temperature),
   ("humidity", fv.humidity), ("ph", fv.ph), ("rainfall", fv.rainfall)]

/-- Rounding a coordinate to 3 decimal places (Python `f"{x:.3f}"`),
represented as the integer number of thousandths. -/
def round3 (q : ℚ) : ℤ := round (q * 1000)

/-- The string `f"{latitude:.3f}_{longitude:.3f}"` built from the rounded
milli-degree values. -/
def coordKey (la lo : ℤ) : String := toString la ++ "_" ++ toString lo

/-- `abs(hash(f"{latitude:.3f}_{longitude:.3f}")) % 10000 / 10000.0`
from `_get_fallback_features`; `pyHash` abstracts Python's string hash. -/
def coordHash (pyHash : String → ℤ) (latitude longitude : ℚ) : ℚ :=
  (((pyHash (coordKey (round3 latitude) (round3 longitude))).natAbs % 10000 : ℕ) : ℚ) / 10000

/-- The zone branch ladder of `_get_fallback_features`, as a function of the
already-computed `coord_hash`. Constants transcribed from the source. -/
def zoneFeatures (coord_hash : ℚ) : FeatureVector :=
  if coord_hash < 0.15 then       -- Rice zone
    { nitrogen := 85 + (coord_hash * 10) * 1.5
      phosphorus := 40 + (coord_hash * 10) * 2
      potassium := 38 + (coord_hash * 10) * 0.8
      temperature := 21 + (coord_hash * 10) * 0.6
      humidity := 80 + (coord_hash * 10) * 0.5
      ph := 6.0 + (coord_hash * 10) * 0.15
      rainfall := 200 + (coord_hash * 10) * 10 }
  else if coord_hash < 0.30 then  -- Maize zone
    { nitrogen := 70 + ((coord_hash - 0.15) * 10) * 2
      phosphorus := 25 + ((coord_hash - 0.15) * 10) * 2
      potassium := 15 + ((coord_hash - 0.15) * 10) * 1
      temperature := 24 + ((coord_hash - 0.15) * 10) * 0.4
      humidity := 60 + ((coord_hash - 0.15) * 10) * 1
      ph := 5.8 + ((coord_hash - 0.15) * 10) * 0.2
      rainfall := 80 + ((coord_hash - 0.15) * 10) * 8 }
  else if coord_hash < 0.45 then  -- Orange/Apple (Fruit) zone
    { nitrogen := 50 + ((coord_hash - 0.30) * 10) * 1.5
      phosphorus := 60 + ((coord_hash - 0.30) * 10) * 2
      potassium := 80 + ((coord_hash - 0.30) * 10) * 2
      temperature := 18 + ((coord_hash - 0.30) * 10) * 0.8
      humidity := 70 + ((coord_hash - 0.30) * 10) * 1
      ph := 6.5 + ((coord_hash - 0.30) * 10) * 0.1
      rainfall := 120 + ((coord_hash - 0.30) * 10) * 6 }
  else if coord_hash < 0.60 then  -- Legume zone
    { nitrogen := 30 + ((coord_hash - 0.45) * 10) * 2
      phosphorus := 70 + ((coord_hash - 0.45) * 10) * 1.5
      potassium := 40 + ((coord_hash - 0.45) * 10) * 1
      temperature := 22 + ((coord_hash - 0.45) * 10) * 0.5
      humidity := 65 + ((coord_hash - 0.45) * 10) * 1
      ph := 7.0 + ((coord_hash - 0.45) * 10) * 0.2
      rainfall := 40 + ((coord_hash - 0.45) * 10) * 4 }
  else if coord_hash < 0.75 then  -- Tropical fruits zone
    { nitrogen := 60 + ((coord_hash - 0.60) * 10) * 1.5
      phosphorus := 45 + ((coord_hash - 0.60) * 10) * 1
      potassium := 100 + ((coord_hash - 0.60) * 10) * 3
      temperature := 28 + ((coord_hash - 0.60) * 10) * 0.4
      humidity := 85 + ((coord_hash - 0.60) * 10) * 0.5
      ph := 6.0 + ((coord_hash - 0.60) * 10) * 0.3
      rainfall := 180 + ((coord_hash - 0.60) * 10) * 8 }
  else                            -- Cotton/Cash crops zone
    { nitrogen := 100 + ((coord_hash - 0.75) * 4) * 1.5
      phosphorus := 20 + ((coord_hash - 0.75) * 4) * 2
      potassium := 50 + ((coord_hash - 0.75) * 4) * 1
      temperature := 26 + ((coord_hash - 0.75) * 4) * 0.6
      humidity := 75 + ((coord_hash - 0.75) * 4) * 1
      ph := 6.2 + ((coord_hash - 0.75) * 4) * 0.2
      rainfall := 60 + ((coord_hash - 0.75) * 4) * 10 }

/-- `AlphaEarthFeatureExtractor._get_fallback_features(latitude, longitude)`. -/
def getFallbackFeatures (pyHash : String → ℤ) (latitude longitude : ℚ) : FeatureVector :=
  zoneFeatures (coordHash pyHash latitude longitude)

/-- `AlphaEarthFeatureExtractor.extract_agricultural_features(latitude,
longitude, year)`: the body unconditionally returns
`self._get_fallback_features(latitude, longitude)`; `year` is unused. -/
def extractAgriculturalFeatures (pyHash : String → ℤ)
    (latitude longitude : ℚ) (_year : ℤ) : FeatureVector :=
  getFallbackFeatures pyHash latitude longitude

/-- `np.mean` over the selected embedding dimensions. -/
def npMean (xs : List ℚ) : ℚ := xs.sum / xs.length

/-- `np.std` (population standard deviation): square root of the mean squared
deviation; the square root is the abstract parameter `sqrtFn`. -/
def npStd (sqrtFn : ℚ → ℚ) (xs : List ℚ) : ℚ :=
  sqrtFn ((xs.map (fun x => (x - npMean xs) ^ 2)).sum / xs.length)

/-- Fancy indexing `embeddings[[i, j, ...]]` on the 64-vector. -/
def selectDims (emb : Fin 64 → ℚ) (idxs : List (Fin 64)) : List ℚ := idxs.map emb

/-- `AlphaEarthFeatureExtractor._estimate_nitrogen`. -/
def estimateNitrogen (sqrtFn : ℚ → ℚ) (emb : Fin 64 → ℚ) : ℚ :=
  let vegetationDims := selectDims emb [1, 5, 12, 23, 34, 32, 37]
  let baseScore := npMean vegetationDims
  let variationFactor := npStd sqrtFn vegetationDims * 50
  let nitrogenScore := baseScore * 200 + 70 + variationFactor
  max 0 (min 140 nitrogenScore)

/-- `AlphaEarthFeatureExtractor._estimate_phosphorus`. -/
def estimatePhosphorus (sqrtFn : ℚ → ℚ) (emb : Fin 64 → ℚ) : ℚ :=
  let soilDims := selectDims emb [3, 8, 15, 27, 41, 21, 22]
  let baseScore := npMean soilDims
  let variationFactor := npStd sqrtFn soilDims * 40
  let phosphorusScore := baseScore * 150 + 75 + variationFactor
  max 5 (min 145 phosphorusScore)

/-- `AlphaEarthFeatureExtractor._estimate_potassium`. -/
def estimatePotassium (sqrtFn : ℚ → ℚ) (emb : Fin 64 → ℚ) : ℚ :=
  let mineralDims := selectDims emb [2, 9, 18, 31, 47, 45]
  let baseScore := npMean mineralDims
  let variationFactor := npStd sqrtFn mineralDims * 60
  let potassiumScore := baseScore * 180 + 105 + variationFactor
  max 5 (min 205 potassiumScore)

/-- `AlphaEarthFeatureExtractor._estimate_temperature`. -/
def estimateTemperature (sqrtFn : ℚ → ℚ) (emb : Fin 64 → ℚ) : ℚ :=
  let thermalDims := selectDims emb [6, 13, 22, 35, 52, 32]
  let baseScore := npMean thermalDims
  let variationFactor := npStd sqrtFn thermalDims * 15
  let tempScore := baseScore * 40 + 26 + variationFactor
  max 8.8 (min 43.7 tempScore)

/-- `AlphaEarthFeatureExtractor._estimate_humidity`. -/
def estimateHumidity (sqrtFn : ℚ → ℚ) (emb : Fin 64 → ℚ) : ℚ :=
  let moistureDims := selectDims emb [4, 11, 19, 29, 44, 37]
  let baseScore := npMean moistureDims
  let variationFactor := npStd sqrtFn moistureDims * 30
  let humidityScore := baseScore * 80 + 57 + variationFactor
  max 14.3 (min 99.9 humidityScore)

/-- `AlphaEarthFeatureExtractor._estimate_ph`. -/
def estimatePh (sqrtFn : ℚ → ℚ) (emb : Fin 64 → ℚ) : ℚ :=
  let soilPhDims := selectDims emb [7, 14, 25, 38, 56, 21]
  let baseScore := npMean soilPhDims
  let variationFactor := npStd sqrtFn soilPhDims * 2
  let phScore := baseScore * 4 + 6.7 + variationFactor
  max 3.5 (min 9.9 phScore)

/-- `AlphaEarthFeatureExtractor._estimate_rainfall`. -/
def estimateRainfall (sqrtFn : ℚ → ℚ) (emb : Fin 64 → ℚ) : ℚ :=
  let precipDims := selectDims emb [10, 17, 26, 39, 58, 32, 45]
  let baseScore := npMean precipDims
  let variationFactor := npStd sqrtFn precipDims * 100
  let rainfallScore := baseScore * 200 + 159 + variationFactor
  max 20.2 (min 298.6 rainfallScore)

/-- `AlphaEarthFeatureExtractor._embeddings_to_agricultural_features`. -/
def embeddingsToAgriculturalFeatures (sqrtFn : ℚ → ℚ) (emb : Fin 64 → ℚ) :
    FeatureVector :=
  { nitrogen := estimateNitrogen sqrtFn emb
    phosphorus := estimatePhosphorus sqrtFn emb
    potassium := estimatePotassium sqrtFn emb
    temperature := estimateTemperature sqrtFn emb
    humidity := estimateHumidity sqrtFn emb
    ph := estimatePh sqrtFn emb
    rainfall := estimateRainfall sqrtFn emb }

/-- The documented per-field bounds of a FeatureVector (spec §4.1 table). -/
def inBounds (fv : FeatureVector) : Prop :=
  0 ≤ fv.nitrogen ∧ fv.nitrogen ≤ 140 ∧
  5 ≤ fv.phosphorus ∧ fv.phosphorus ≤ 145 ∧
  5 ≤ fv.potassium ∧ fv.potassium ≤ 205 ∧
  8.8 ≤ fv.temperature ∧ fv.temperature ≤ 43.7 ∧
  14.3 ≤ fv.humidity ∧ fv.humidity ≤ 99.9 ∧
  3.5 ≤ fv.ph ∧ fv.ph ≤ 9.9 ∧
  20.2 ≤ fv.rainfall ∧ fv.rainfall ≤ 298.6

/-- Modelled from the spec: one row of the ordered Zone partition table —
bucket bounds on `h`, the zone factor, and per-quantity base/slope constants
(spec §4.1 fallback path, design note on the explicit zone table). -/
structure ZoneSpec where
  zoneName : String
  lower : ℚ
  upper : ℚ
  factor : ℚ
  base : FeatureVector
  slope : FeatureVector

def riceZone : ZoneSpec :=
  { zoneName := "Rice", lower := 0, upper := 0.15, factor := 10
    base := ⟨85, 40, 38, 21, 80, 6.0, 200⟩
    slope := ⟨1.5, 2, 0.8, 0.6, 0.5, 0.15, 10⟩ }

def maizeZone : ZoneSpec :=
  { zoneName := "Maize", lower := 0.15, upper := 0.30, factor := 10
    base := ⟨70, 25, 15, 24, 60, 5.8, 80⟩
    slope := ⟨2, 2, 1, 0.4, 1, 0.2, 8⟩ }

def fruitZone : ZoneSpec :=
  { zoneName := "Fruit", lower := 0.30, upper := 0.45, factor := 10
    base := ⟨50, 60, 80, 18, 70, 6.5, 120⟩
    slope := ⟨1.5, 2, 2, 0.8, 1, 0.1, 6⟩ }

def legumeZone : ZoneSpec :=
  { zoneName := "Legume", lower := 0.45, upper := 0.60, factor := 10
    base := ⟨30, 70, 40, 22, 65, 7.0, 40⟩
    slope := ⟨2, 1.5, 1, 0.5, 1, 0.2, 4⟩ }

def tropicalZone : ZoneSpec :=
  { zoneName := "Tropical", lower := 0.60, upper := 0.75, factor := 10
    base := ⟨60, 45, 100, 28, 85, 6.0, 180⟩
    slope := ⟨1.5, 1, 3, 0.4, 0.5, 0.3, 8⟩ }

def cottonZone : ZoneSpec :=
  { zoneName := "Cotton/Cash", lower := 0.75, upper := 1, factor := 4
    base := ⟨100, 20, 50, 26, 75, 6.2, 60⟩
    slope := ⟨1.5, 2, 1, 0.6, 1, 0.2, 10⟩ }

/-- Modelled from the spec: the six Zone buckets in the listed order
(widths 0.15, 0.15, 0.15, 0.15, 0.15, 0.25). -/
def zoneTable : Fin 6 → ZoneSpec
  | 0 => riceZone
  | 1 => maizeZone
  | 2 => fruitZone
  | 3 => legumeZone
  | 4 => tropicalZone
  | 5 => cottonZone

/-- Modelled from the spec: within a zone each quantity is the zone base
constant plus `(h - zone_lower_bound) * factor * slope`. -/
def zoneApply (z : ZoneSpec) (h : ℚ) : FeatureVector :=
  { nitrogen := z.base.nitrogen + (h - z.lower) * z.factor * z.slope.nitrogen
    phosphorus := z.base.phosphorus + (h - z.lower) * z.factor * z.slope.phosphorus
    potassium := z.base.potassium + (h - z.lower) * z.factor * z.slope.potassium
    temperature := z.base.temperature + (h - z.lower) * z.factor * z.slope.temperature
    humidity := z.base.humidity + (h - z.lower) * z.factor * z.slope.humidity
    ph := z.base.ph + (h - z.lower) * z.factor * z.slope.ph
    rainfall := z.base.rainfall + (h - z.lower) * z.factor * z.slope.rainfall }

/-- Modelled from the spec: per-quantity configuration of the real embedding
path — dimension subset, scale, offset, amplification and clamp bounds. -/
structure QuantitySpec where
  dims : List (Fin 64)
  scale : ℚ
  offset : ℚ
  amplification : ℚ
  lowerBound : ℚ
  upperBound : ℚ

/-- Modelled from the spec:
`clamp(mean(selected_embedding_dims) * scale + offset
  + amplification * stddev(selected_embedding_dims), lower_bound, upper_bound)`. -/
def clampFormula (sqrtFn : ℚ → ℚ) (emb : Fin 64 → ℚ) (q : QuantitySpec) : ℚ :=
  max q.lowerBound (min q.upperBound
    (npMean (selectDims emb q.dims) * q.scale + q.offset
      + q.amplification * npStd sqrtFn (selectDims emb q.dims)))

def nitrogenSpec : QuantitySpec :=
  { dims := [1, 5, 12, 23, 34, 32, 37], scale := 200, offset := 70,
    amplification := 50, lowerBound := 0, upperBound := 140 }

def phosphorusSpec : QuantitySpec :=
  { dims := [3, 8, 15, 27, 41, 21, 22], scale := 150, offset := 75,
    amplification := 40, lowerBound := 5, upperBound := 145 }

def potassiumSpec : QuantitySpec :=
  { dims := [2, 9, 18, 31, 47, 45], scale := 180, offset := 105,
    amplification := 60, lowerBound := 5, upperBound := 205 }

def temperatureSpec : QuantitySpec :=
  { dims := [6, 13, 22, 35, 52, 32], scale := 40, offset := 26,
    amplification := 15, lowerBound := 8.8, upperBound := 43.7 }

def humiditySpec : QuantitySpec :=
  { dims := [4, 11, 19, 29, 44, 37], scale := 80, offset := 57,
    amplification := 30, lowerBound := 14.3, upperBound := 99.9 }

def phSpec : QuantitySpec :=
  { dims := [7, 14, 25, 38, 56, 21], scale := 4, offset := 6.7,
    amplification := 2, lowerBound := 3.5, upperBound := 9.9 }

def rainfallSpec : QuantitySpec :=
  { dims := [10, 17, 26, 39, 58, 32, 45], scale := 200, offset := 159,
    amplification := 100, lowerBound := 20.2, upperBound := 298.6 }

/-- One entry of the `locations` array of a batch request. -/
structure BatchLocation where
  latitude : ℚ
  longitude : ℚ
deriving DecidableEq, Repr

/-- The fields of a recommendation response consumed by
`handle_batch_request` when building a success record. -/
structure CropResponse where
  recommended_crop : String
  confidence_score : ℚ
  processing_time_ms : ℚ
  cache_hit : Bool
deriving DecidableEq, Repr

/-- One entry of the `results` list assembled by `handle_batch_request`:
the success record, or the per-item error record built in the `except`
branch. -/
inductive BatchResult where
  | success (location_index : ℕ) (latitude longitude : ℚ) (crop : String)
      (confidence : ℚ) (processing_time_ms : ℚ) (cache_hit : Bool)
  | failure (location_index : ℕ) (latitude longitude : ℚ) (error : String)
deriving DecidableEq, Repr

/-- Body of the per-future loop of `handle_batch_request`:
`future.result(timeout=30)` either yields a response or raises (exception or
timeout); the outcome of item `i`'s future is the oracle `compute i loc`. -/
def batchItemResult (compute : ℕ → BatchLocation → Except String CropResponse)
    (i : ℕ) (loc : BatchLocation) : BatchResult :=
  match compute i loc with
  | Except.ok r => BatchResult.success i loc.latitude loc.longitude
      r.recommended_crop r.confidence_score r.processing_time_ms r.cache_hit
  | Except.error e => BatchResult.failure i loc.latitude loc.longitude e

/-- `for i, future in enumerate(futures)`: builds the results list in input
order, with `start` the index of the first remaining item. -/
def processBatchFrom (compute : ℕ → BatchLocation → Except String CropResponse) :
    ℕ → List BatchLocation → List BatchResult
  | _, [] => []
  | start, loc :: rest =>
      batchItemResult compute start loc :: processBatchFrom compute (start + 1) rest

def processBatch (compute : ℕ → BatchLocation → Except String CropResponse)
    (locs : List BatchLocation) : List BatchResult :=
  processBatchFrom compute 0 locs

/-- `handle_batch_request`: the pre-flight size check
(`if len(locations) > 100: return error 400`), then per-item dispatch. -/
def handleBatchRequest (compute : ℕ → BatchLocation → Except String CropResponse)
    (locs : List BatchLocation) : Except String (List BatchResult) :=
  if locs.length > 100 then Except.error "Batch size limited to 100 locations"
  else Except.ok (processBatch compute locs)

/-- `FarmerContact` dataclass of `sms_service.py`. -/
structure FarmerContact where
  name : String
  phone_number : String
  location : String
  latitude : ℚ
  longitude : ℚ
  preferred_language : String
  created_at : String
deriving DecidableEq, Repr

/-- `FarmerContactManager.contacts : Dict[str, List[FarmerContact]]`,
modelled as an association list over location keys. -/
abbrev ContactsMap := List (String × List FarmerContact)

/-- Dict key lookup `self.contacts.get(location)`. -/
def lookupLocation (m : ContactsMap) (loc : String) : Option (List FarmerContact) :=
  (m.find? (fun p => p.1 == loc)).map Prod.snd

/-- Dict value update `self.contacts[location] = v` for an existing key. -/
def setLocation (m : ContactsMap) (loc : String) (v : List FarmerContact) :
    ContactsMap :=
  m.map (fun p => if p.1 == loc then (loc, v) else p)

/-- `FarmerContactManager.add_farmer`: create the location key with an empty
list when missing, refuse a duplicate phone number in the same location,
otherwise append the contact. -/
def addFarmer (m : ContactsMap) (farmer : FarmerContact) : ContactsMap × Bool :=
  let m1 := if (lookupLocation m farmer.location).isNone
    then m ++ [(farmer.location, [])] else m
  let existing := (lookupLocation m1 farmer.location).getD []
  if farmer.phone_number ∈ existing.map (fun f => f.phone_number) then (m1, false)
  else (setLocation m1 farmer.location (existing ++ [farmer]), true)

/-- `FarmerContactManager.remove_farmer`: drop every contact with the given
phone number at the location, deleting the key if its list becomes empty. -/
def removeFarmer (m : ContactsMap) (loc phone : String) : ContactsMap × Bool :=
  match lookupLocation m loc with
  | none => (m, false)
  | some l =>
      let filtered := l.filter (fun f => f.phone_number != phone)
      if filtered.isEmpty then (m.filter (fun p => p.1 != loc), true)
      else (setLocation m loc filtered, true)

/-- The invariant: every location key present in the contacts map refers to a
non-empty list of farmer contacts. -/
def locationsNonEmpty (m : ContactsMap) : Prop := ∀ p ∈ m, p.2 ≠ []

lemma clamp_mem (lb ub x : ℚ) (hle : lb ≤ ub) :
    lb ≤ max lb (min ub x) ∧ max lb (min ub x) ≤ ub :=
  ⟨le_max_left _ _, max_le hle (min_le_left _ _)⟩

lemma coordHash_nonneg (pyHash : String → ℤ) (lat lon : ℚ) :
    0 ≤ coordHash pyHash lat lon := by
  unfold coordHash; positivity

lemma coordHash_lt_one (pyHash : String → ℤ) (lat lon : ℚ) :
    coordHash pyHash lat lon < 1 := by
  unfold coordHash
  rw [div_lt_one (by norm_num)]
  exact_mod_cast Nat.mod_lt _ (by norm_num)

lemma zoneFeatures_inBounds (h : ℚ) (h0 : 0 ≤ h) (h1 : h < 1) :
    inBounds (zoneFeatures h) := by
  unfold inBounds zoneFeatures
  split_ifs with h15 h30 h45 h60 h75 <;> dsimp only <;>
    refine ⟨by norm_num; linarith, by norm_num; linarith, by norm_num; linarith,
            by norm_num; linarith, by norm_num; linarith, by norm_num; linarith,
            by norm_num; linarith, by norm_num; linarith, by norm_num; linarith,
            by norm_num; linarith, by norm_num; linarith, by norm_num; linarith,
            by norm_num; linarith, by norm_num; linarith⟩

lemma embeddings_inBounds (sqrtFn : ℚ → ℚ) (emb : Fin 64 → ℚ) :
    inBounds (embeddingsToAgriculturalFeatures sqrtFn emb) := by
  unfold inBounds embeddingsToAgriculturalFeatures
    estimateNitrogen estimatePhosphorus estimatePotassium estimateTemperature
    estimateHumidity estimatePh estimateRainfall
  dsimp only
  refine ⟨(clamp_mem _ _ _ ?_).1, (clamp_mem _ _ _ ?_).2, (clamp_mem _ _ _ ?_).1,
          (clamp_mem _ _ _ ?_).2, (clamp_mem _ _ _ ?_).1, (clamp_mem _ _ _ ?_).2,
          (clamp_mem _ _ _ ?_).1, (clamp_mem _ _ _ ?_).2, (clamp_mem _ _ _ ?_).1,
          (clamp_mem _ _ _ ?_).2, (clamp_mem _ _ _ ?_).1, (clamp_mem _ _ _ ?_).2,
          (clamp_mem _ _ _ ?_).1, (clamp_mem _ _ _ ?_).2⟩ <;> norm_num

/-- C2: every FeatureVector produced by either path of the resolver has all
7 fields inside the documented bounds. -/
theorem features_in_documented_ranges :
    (∀ (pyHash : String → ℤ) (lat lon : ℚ),
        inBounds (getFallbackFeatures pyHash lat lon)) ∧
    (∀ (sqrtFn : ℚ → ℚ) (emb : Fin 64 → ℚ),
        inBounds (embeddingsToAgriculturalFeatures sqrtFn emb)) :=
  ⟨fun pyHash lat lon =>
      zoneFeatures_inBounds _ (coordHash_nonneg pyHash lat lon)
        (coordHash_lt_one pyHash lat lon),
   embeddings_inBounds⟩

/-- C1: determinism of the fallback path as a function of the rounded
coordinates (hash abstracted as a fixed per-process function). -/
theorem fallback_deterministic (pyHash : String → ℤ)
    (lat₁ lon₁ lat₂ lon₂ : ℚ)
    (hla : round3 lat₁ = round3 lat₂) (hlo : round3 lon₁ = round3 lon₂) :
    getFallbackFeatures pyHash lat₁ lon₁ = getFallbackFeatures pyHash lat₂ lon₂ := by
  unfold getFallbackFeatures coordHash
  rw [hla, hlo]

theorem fallback_deterministic_witness :
    round3 (10005/10000 : ℚ) = round3 (1001/1000 : ℚ) ∧
    round3 (2 : ℚ) = round3 (2 : ℚ) ∧
    getFallbackFeatures (fun s => (s.length : ℤ)) (10005/10000) 2
      = getFallbackFeatures (fun s => (s.length : ℤ)) (1001/1000) 2 :=
  ⟨by norm_num [round3, round_eq], rfl,
   fallback_deterministic (fun s => (s.length : ℤ)) _ _ _ _
     (by norm_num [round3, round_eq]) rfl⟩

/-- C9: the returned feature vector does not depend on the `year` argument. -/
theorem extract_features_year_independent (pyHash : String → ℤ)
    (latitude longitude : ℚ) (y₁ y₂ : ℤ) :
    extractAgriculturalFeatures pyHash latitude longitude y₁
      = extractAgriculturalFeatures pyHash latitude longitude y₂ := rfl

/-- C4: `extract_agricultural_features` always succeeds, its result is the
synthetic fallback vector (so an unavailable embedding source never surfaces
as an error), and the returned dict carries all 7 agronomic keys. -/
theorem extract_features_total (pyHash : String → ℤ)
    (latitude longitude : ℚ) (year : ℤ) :
    extractAgriculturalFeatures pyHash latitude longitude year
        = getFallbackFeatures pyHash latitude longitude ∧
    (extractAgriculturalFeatures pyHash latitude longitude year).toDict.map Prod.fst
        = ["nitrogen", "phosphorus", "potassium", "temperature",
           "humidity", "ph", "rainfall"] :=
  ⟨rfl, rfl⟩

lemma clamp_congr (lb ub a b : ℚ) (hab : a = b) :
    max lb (min ub a) = max lb (min ub b) := by rw [hab]

lemma zoneFeatures_rice (h : ℚ) (hu : h < 0.15) :
    zoneFeatures h = zoneApply riceZone h := by
  unfold zoneFeatures zoneApply riceZone
  rw [if_pos hu]
  ext <;> dsimp only <;> ring

lemma zoneFeatures_maize (h : ℚ) (hl : 0.15 ≤ h) (hu : h < 0.30) :
    zoneFeatures h = zoneApply maizeZone h := by
  unfold zoneFeatures zoneApply maizeZone
  rw [if_neg (not_lt.2 hl), if_pos hu]

lemma zoneFeatures_fruit (h : ℚ) (hl : 0.30 ≤ h) (hu : h < 0.45) :
    zoneFeatures h = zoneApply fruitZone h := by
  unfold zoneFeatures zoneApply fruitZone
  rw [if_neg (not_lt.2 (by linarith)), if_neg (not_lt.2 hl), if_pos hu]

lemma zoneFeatures_legume (h : ℚ) (hl : 0.45 ≤ h) (hu : h < 0.60) :
    zoneFeatures h = zoneApply legumeZone h := by
  unfold zoneFeatures zoneApply legumeZone
  rw [if_neg (not_lt.2 (by linarith)), if_neg (not_lt.2 (by linarith)),
    if_neg (not_lt.2 hl), if_pos hu]

lemma zoneFeatures_tropical (h : ℚ) (hl : 0.60 ≤ h) (hu : h < 0.75) :
    zoneFeatures h = zoneApply tropicalZone h := by
  unfold zoneFeatures zoneApply tropicalZone
  rw [if_neg (not_lt.2 (by linarith)), if_neg (not_lt.2 (by linarith)),
    if_neg (not_lt.2 (by linarith)), if_neg (not_lt.2 hl), if_pos hu]

lemma zoneFeatures_cotton (h : ℚ) (hl : 0.75 ≤ h) :
    zoneFeatures h = zoneApply cottonZone h := by
  unfold zoneFeatures zoneApply cottonZone
  rw [if_neg (not_lt.2 (by linarith)), if_neg (not_lt.2 (by linarith)),
    if_neg (not_lt.2 (by linarith)), if_neg (not_lt.2 (by linarith)),
    if_neg (not_lt.2 hl)]

lemma zone_bucket_unique (h : ℚ) (i j : Fin 6)
    (hi : (zoneTable i).lower ≤ h ∧ h < (zoneTable i).upper)
    (hj : (zoneTable j).lower ≤ h ∧ h < (zoneTable j).upper) : i = j := by
  fin_cases i <;> fin_cases j <;>
    simp only [zoneTable, riceZone, maizeZone, fruitZone, legumeZone, tropicalZone,
      cottonZone] at hi hj <;>
    first
      | rfl
      | (exfalso
         obtain ⟨hi1, hi2⟩ := hi
         obtain ⟨hj1, hj2⟩ := hj
         linarith)

lemma zone_bucket_exists (h : ℚ) (h0 : 0 ≤ h) (h1 : h < 1) :
    ∃ i : Fin 6, (zoneTable i).lower ≤ h ∧ h < (zoneTable i).upper := by
  rcases lt_or_le h 0.15 with c1 | c1
  · exact ⟨0, by simp only [zoneTable, riceZone]; exact ⟨h0, c1⟩⟩
  rcases lt_or_le h 0.30 with c2 | c2
  · exact ⟨1, by simp only [zoneTable, maizeZone]; exact ⟨c1, c2⟩⟩
  rcases lt_or_le h 0.45 with c3 | c3
  · exact ⟨2, by simp only [zoneTable, fruitZone]; exact ⟨c2, c3⟩⟩
  rcases lt_or_le h 0.60 with c4 | c4
  · exact ⟨3, by simp only [zoneTable, legumeZone]; exact ⟨c3, c4⟩⟩
  rcases lt_or_le h 0.75 with c5 | c5
  · exact ⟨4, by simp only [zoneTable, tropicalZone]; exact ⟨c4, c5⟩⟩
  · exact ⟨5, by simp only [zoneTable, cottonZone]; exact ⟨c5, h1⟩⟩

lemma zoneFeatures_eq_zoneApply (h : ℚ) (i : Fin 6)
    (hl : (zoneTable i).lower ≤ h) (hu : h < (zoneTable i).upper) :
    zoneFeatures h = zoneApply (zoneTable i) h := by
  fin_cases i <;>
    simp only [zoneTable, riceZone, maizeZone, fruitZone, legumeZone, tropicalZone,
      cottonZone] at hl hu ⊢
  · exact zoneFeatures_rice h hu
  · exact zoneFeatures_maize h hl hu
  · exact zoneFeatures_fruit h hl hu
  · exact zoneFeatures_legume h hl hu
  · exact zoneFeatures_tropical h hl hu
  · exact zoneFeatures_cotton h hl

/-- C3: the fallback hash value `h` lies in `[0,1)`; the six Zone buckets of
the table (widths 0.15 ×5 and 0.25, in the listed order) partition it so that
exactly one zone is selected; and within the selected zone every quantity is
the zone base plus `(h - lower) * factor * slope`. -/
theorem fallback_zone_synthesis (pyHash : String → ℤ) (lat lon : ℚ) :
    (0 ≤ coordHash pyHash lat lon ∧ coordHash pyHash lat lon < 1) ∧
    (∃! i : Fin 6, (zoneTable i).lower ≤ coordHash pyHash lat lon ∧
        coordHash pyHash lat lon < (zoneTable i).upper) ∧
    (∀ i : Fin 6, (zoneTable i).lower ≤ coordHash pyHash lat lon →
        coordHash pyHash lat lon < (zoneTable i).upper →
        getFallbackFeatures pyHash lat lon
          = zoneApply (zoneTable i) (coordHash pyHash lat lon)) := by
  have h0 := coordHash_nonneg pyHash lat lon
  have h1 := coordHash_lt_one pyHash lat lon
  refine ⟨⟨h0, h1⟩, ?_, ?_⟩
  · obtain ⟨i, hi⟩ := zone_bucket_exists _ h0 h1
    exact ⟨i, hi, fun j hj => zone_bucket_unique _ j i hj hi⟩
  · intro i hl hu
    exact zoneFeatures_eq_zoneApply _ i hl hu

theorem fallback_zone_synthesis_witness :
    getFallbackFeatures (fun _ => (1234 : ℤ)) 9 38
      = zoneApply (zoneTable 0) (coordHash (fun _ => (1234 : ℤ)) 9 38) :=
  (fallback_zone_synthesis (fun _ => (1234 : ℤ)) 9 38).2.2 0
    (by norm_num [zoneTable, riceZone, coordHash])
    (by norm_num [zoneTable, riceZone, coordHash])

/-- C5: on the real embedding path each of the 7 output quantities is exactly
`clamp(mean(selected dims) * scale + offset + amplification * stddev(selected
dims), lower_bound, upper_bound)` with the per-quantity constants of the
configuration table (e.g. nitrogen: dims [1,5,12,23,34,32,37], scale 200,
offset 70, amplification 50, bounds [0,140]). -/
theorem real_path_matches_clamp_formula (sqrtFn : ℚ → ℚ) (emb : Fin 64 → ℚ) :
    embeddingsToAgriculturalFeatures sqrtFn emb =
      { nitrogen := clampFormula sqrtFn emb nitrogenSpec
        phosphorus := clampFormula sqrtFn emb phosphorusSpec
        potassium := clampFormula sqrtFn emb potassiumSpec
        temperature := clampFormula sqrtFn emb temperatureSpec
        humidity := clampFormula sqrtFn emb humiditySpec
        ph := clampFormula sqrtFn emb phSpec
        rainfall := clampFormula sqrtFn emb rainfallSpec } := by
  unfold embeddingsToAgriculturalFeatures clampFormula
    estimateNitrogen estimatePhosphorus estimatePotassium estimateTemperature
    estimateHumidity estimatePh estimateRainfall
    nitrogenSpec phosphorusSpec potassiumSpec temperatureSpec humiditySpec phSpec
    rainfallSpec
  simp only [FeatureVector.mk.injEq]
  refine ⟨clamp_congr _ _ _ _ (by ring), clamp_congr _ _ _ _ (by ring),
          clamp_congr _ _ _ _ (by ring), clamp_congr _ _ _ _ (by ring),
          clamp_congr _ _ _ _ (by ring), clamp_congr _ _ _ _ (by ring),
          clamp_congr _ _ _ _ (by ring)⟩

lemma processBatchFrom_length
    (compute : ℕ → BatchLocation → Except String CropResponse)
    (start : ℕ) (locs : List BatchLocation) :
    (processBatchFrom compute start locs).length = locs.length := by
  induction locs generalizing start with
  | nil => rfl
  | cons a rest ih => simp [processBatchFrom, ih]

lemma processBatchFrom_getElem?
    (compute : ℕ → BatchLocation → Except String CropResponse)
    (start j : ℕ) (locs : List BatchLocation) :
    (processBatchFrom compute start locs)[j]?
      = locs[j]?.map (fun loc => batchItemResult compute (start + j) loc) := by
  induction locs generalizing start j with
  | nil => simp [processBatchFrom]
  | cons a rest ih =>
    cases j with
    | zero => simp [processBatchFrom]
    | succ j =>
      have e : start + 1 + j = start + (j + 1) := by omega
      simp [processBatchFrom, ih, e]

/-- C7: a batch of more than 100 locations is rejected as a whole before any
item is dispatched (the outcome does not depend on the per-item computation),
and a batch of at most 100 locations is never rejected for its size. -/
theorem batch_size_preflight
    (compute : ℕ → BatchLocation → Except String CropResponse)
    (locs : List BatchLocation) :
    (locs.length > 100 →
        handleBatchRequest compute locs
            = Except.error "Batch size limited to 100 locations" ∧
        ∀ compute', handleBatchRequest compute locs
            = handleBatchRequest compute' locs) ∧
    (locs.length ≤ 100 →
        handleBatchRequest compute locs
            = Except.ok (processBatch compute locs)) := by
  constructor
  · intro hgt
    constructor
    · unfold handleBatchRequest
      rw [if_pos hgt]
    · intro compute'
      unfold handleBatchRequest
      rw [if_pos hgt, if_pos hgt]
  · intro hle
    unfold handleBatchRequest
    rw [if_neg (by omega)]

theorem batch_size_preflight_witness :
    handleBatchRequest (fun _ _ => Except.ok ⟨"rice", 1, 0, false⟩)
        (List.replicate 101 ⟨0, 0⟩)
      = Except.error "Batch size limited to 100 locations" ∧
    handleBatchRequest (fun _ _ => Except.ok ⟨"rice", 1, 0, false⟩) [⟨0, 0⟩]
      = Except.ok (processBatch (fun _ _ => Except.ok ⟨"rice", 1, 0, false⟩)
          [⟨0, 0⟩]) :=
  ⟨((batch_size_preflight _ _).1 (by simp)).1,
   (batch_size_preflight _ _).2 (by simp)⟩

/-- C8: for a batch within the size limit the dispatcher returns exactly one
result per input, index-aligned; item `j`'s entry is a function of item `j`'s
own computation alone, a raising/timing-out item `j` yields the error marker
at index `j` only, and changing the computation at index `j` leaves every
other index's result unchanged. -/
theorem batch_results_index_aligned
    (compute : ℕ → BatchLocation → Except String CropResponse)
    (locs : List BatchLocation) (hlen : locs.length ≤ 100)
    (j : ℕ) (loc : BatchLocation) (hj : locs[j]? = some loc) :
    handleBatchRequest compute locs = Except.ok (processBatch compute locs) ∧
    (processBatch compute locs).length = locs.length ∧
    (processBatch compute locs)[j]? = some (batchItemResult compute j loc) ∧
    (∀ e, compute j loc = Except.error e →
        (processBatch compute locs)[j]?
          = some (BatchResult.failure j loc.latitude loc.longitude e)) ∧
    (∀ compute' : ℕ → BatchLocation → Except String CropResponse,
        (∀ i l, i ≠ j → compute' i l = compute i l) →
        ∀ i, i ≠ j →
          (processBatch compute' locs)[i]? = (processBatch compute locs)[i]?) := by
  refine ⟨?_, processBatchFrom_length compute 0 locs, ?_, ?_, ?_⟩
  · unfold handleBatchRequest
    rw [if_neg (by omega)]
  · rw [processBatch, processBatchFrom_getElem?]
    simp [hj]
  · intro e he
    rw [processBatch, processBatchFrom_getElem?]
    simp [hj, batchItemResult, he]
  · intro compute' hagree i hi
    rw [processBatch, processBatch, processBatchFrom_getElem?,
      processBatchFrom_getElem?]
    cases hcase : locs[i]? with
    | none => simp
    | some l =>
      simp only [Option.map_some', Nat.zero_add]
      rw [batchItemResult, batchItemResult, hagree i l hi]

theorem batch_results_index_aligned_witness :
    (processBatch
        (fun i _ => if i = 1 then Except.error "invalid feature dimensionality"
          else Except.ok ⟨"rice", 9/10, 5, false⟩)
        [⟨1, 2⟩, ⟨3, 4⟩]).length
      = ([⟨1, 2⟩, ⟨3, 4⟩] : List BatchLocation).length ∧
    (processBatch
        (fun i _ => if i = 1 then Except.error "invalid feature dimensionality"
          else Except.ok ⟨"rice", 9/10, 5, false⟩)
        [⟨1, 2⟩, ⟨3, 4⟩])[1]?
      = some (BatchResult.failure 1 3 4 "invalid feature dimensionality") :=
  ⟨(batch_results_index_aligned _ [⟨1, 2⟩, ⟨3, 4⟩] (by simp) 1 ⟨3, 4⟩ rfl).2.1,
   (batch_results_index_aligned _ [⟨1, 2⟩, ⟨3, 4⟩] (by simp) 1 ⟨3, 4⟩ rfl).2.2.2.1
     "invalid feature dimensionality" rfl⟩

lemma lookupLocation_eq_none_iff (m : ContactsMap) (loc : String) :
    lookupLocation m loc = none ↔ ∀ p ∈ m, ¬(p.1 == loc) := by
  unfold lookupLocation
  rw [Option.map_eq_none']
  exact List.find?_eq_none

lemma setLocation_mem {m : ContactsMap} {loc : String} {v : List FarmerContact}
    {p : String × List FarmerContact} (hp : p ∈ setLocation m loc v) :
    p = (loc, v) ∨ (p ∈ m ∧ ¬(p.1 == loc)) := by
  unfold setLocation at hp
  obtain ⟨q, hq, hfq⟩ := List.mem_map.mp hp
  by_cases hql : q.1 == loc
  · left
    rw [if_pos hql] at hfq
    exact hfq.symm
  · right
    rw [if_neg hql] at hfq
    exact ⟨hfq ▸ hq, hfq ▸ hql⟩

lemma addFarmer_preserves (m : ContactsMap) (farmer : FarmerContact)
    (hm : locationsNonEmpty m) : locationsNonEmpty (addFarmer m farmer).1 := by
  unfold addFarmer
  cases hlk : lookupLocation m farmer.location with
  | some l =>
    simp only [hlk, Option.isNone_some, Bool.false_eq_true, if_false,
      Option.getD_some]
    by_cases hdup : farmer.phone_number ∈ l.map (fun f => f.phone_number)
    · rw [if_pos hdup]
      exact hm
    · rw [if_neg hdup]
      intro p hp
      rcases setLocation_mem hp with hcase | hcase
      · rw [hcase]
        simp
      · exact hm p hcase.1
  | none =>
    have hall := (lookupLocation_eq_none_iff m farmer.location).mp hlk
    have happ : lookupLocation (m ++ [(farmer.location, [])]) farmer.location
        = some [] := by
      unfold lookupLocation
      rw [List.find?_append, List.find?_eq_none.mpr hall]
      simp
    simp only [hlk, Option.isNone_none, if_true, happ, Option.getD_some,
      List.map_nil, List.not_mem_nil, if_false, List.nil_append]
    intro p hp
    rcases setLocation_mem hp with hcase | hcase
    · rw [hcase]
      simp
    · rcases List.mem_append.mp hcase.1 with hin | hin
      · exact hm p hin
      · exfalso
        apply hcase.2
        rw [List.mem_singleton.mp hin]
        exact beq_self_eq_true _

lemma removeFarmer_preserves (m : ContactsMap) (loc phone : String)
    (hm : locationsNonEmpty m) :
    locationsNonEmpty (removeFarmer m loc phone).1 := by
  unfold removeFarmer
  cases hlk : lookupLocation m loc with
  | none => exact hm
  | some l =>
    dsimp only
    by_cases hemp : (l.filter (fun f => f.phone_number != phone)).isEmpty = true
    · rw [if_pos hemp]
      intro p hp
      exact hm p (List.mem_of_mem_filter hp)
    · rw [if_neg hemp]
      intro p hp
      rcases setLocation_mem hp with hcase | hcase
      · rw [hcase]
        dsimp only
        intro hnil
        exact hemp (by rw [hnil]; rfl)
      · exact hm p hcase.1

/-- C10: `add_farmer` and `remove_farmer` preserve the invariant that every
location key in the contacts map refers to a non-empty contact list. -/
theorem contacts_nonempty_invariant (m : ContactsMap) (farmer : FarmerContact)
    (loc phone : String) (hm : locationsNonEmpty m) :
    locationsNonEmpty (addFarmer m farmer).1 ∧
    locationsNonEmpty (removeFarmer m loc phone).1 :=
  ⟨addFarmer_preserves m farmer hm, removeFarmer_preserves m loc phone hm⟩

theorem contacts_nonempty_invariant_witness :
    locationsNonEmpty
      [("Addis Ababa",
        [⟨"Abebe", "+251911234567", "Addis Ababa", 9, 38, "amharic", "t0"⟩])] ∧
    locationsNonEmpty
      (addFarmer
        [("Addis Ababa",
          [⟨"Abebe", "+251911234567", "Addis Ababa", 9, 38, "amharic", "t0"⟩])]
        ⟨"Chaltu", "+251922000000", "Adama", 8, 39, "afaan_oromo", "t1"⟩).1 ∧
    locationsNonEmpty
      (removeFarmer
        [("Addis Ababa",
          [⟨"Abebe", "+251911234567", "Addis Ababa", 9, 38, "amharic", "t0"⟩])]
        "Addis Ababa" "+251911234567").1 := by
  have hbase : locationsNonEmpty
      [("Addis Ababa",
        [⟨"Abebe", "+251911234567", "Addis Ababa", 9, 38, "amharic", "t0"⟩])] := by
    intro p hp
    rw [List.mem_singleton.mp hp]
    simp
  exact ⟨hbase,
    (contacts_nonempty_invariant _
      ⟨"Chaltu", "+251922000000", "Adama", 8, 39, "afaan_oromo", "t1"⟩
      "Addis Ababa" "+251911234567" hbase).1,
    (contacts_nonempty_invariant _
      ⟨"Chaltu", "+251922000000", "Adama", 8, 39, "afaan_oromo", "t1"⟩
      "Addis Ababa" "+251911234567" hbase).2⟩

end RebootEarth
